import Mathlib

/-!
Verification of the face-blur microservice (`face_blur_service.py`).

The service's own logic — the per-frame loop of `process_video`, the region
write-back of `apply_face_blur`, and the request handling of the `/blur`
endpoint — is embedded shallowly below.  The two external vision-library
calls (`detectMultiScale` and `GaussianBlur`) are taken as function
parameters (`Detect`, `Gauss`): the theorems hold for every behaviour of
those library calls.  External I/O outcomes (the HTTP fetch, whether the
codec can open the downloaded file, the size reported for the output file)
are likewise passed in as explicit data, and the endpoint returns, next to
the JSON response, a trace of its file-system effects.
-/

namespace FaceBlur

/-- A video frame, modelled by its pixel grid: the value of pixel
(row i, column j).  Pixel values are abstract naturals. -/
abbrev Frame := Nat → Nat → Nat

/-- A face bounding box `(x, y, w, h)` as produced by `detectMultiScale`. -/
structure Rect where
  x : Nat
  y : Nat
  w : Nat
  h : Nat
deriving DecidableEq, Repr

/-- The external face detector (`face_cascade.detectMultiScale` on the
grayscale frame): any function from a frame to a list of rectangles. -/
abbrev Detect := Frame → List Rect

/-- The external Gaussian blur (`cv2.GaussianBlur` applied to the extracted
face region): given the current frame content and the rectangle being
blurred, the value it produces for pixel (i, j) of that region. -/
abbrev Gauss := Frame → Rect → Nat → Nat → Nat

/-- Membership of pixel (i, j) in the numpy slice
`blurred_frame[y:y+h, x:x+w]` of a frame of height hF and width wF:
numpy clips the slice to the frame bounds. -/
def inClippedRect (hF wF : Nat) (r : Rect) (i j : Nat) : Bool :=
  decide (r.y ≤ i) && decide (i < min (r.y + r.h) hF) &&
  decide (r.x ≤ j) && decide (j < min (r.x + r.w) wF)

/-- One iteration of the loop in `apply_face_blur`: extract the face
region, blur it, and write it back over the same slice.  Pixels inside the
clipped rectangle take the blurred value; all others keep their value. -/
def blurOneFace (hF wF : Nat) (gauss : Gauss) (f : Frame) (r : Rect) : Frame :=
  fun i j => if inClippedRect hF wF r i j then gauss f r i j else f i j

/-- `apply_face_blur(frame, faces)`: start from a copy of the frame and
write a blurred region back for each rectangle in turn. -/
def apply_face_blur (hF wF : Nat) (gauss : Gauss) (frame : Frame)
    (faces : List Rect) : Frame :=
  faces.foldl (blurOneFace hF wF gauss) frame

/-- Pixel (i, j) lies outside every clipped face rectangle of the list. -/
def outsideAll (hF wF : Nat) (faces : List Rect) (i j : Nat) : Bool :=
  faces.all fun r => ! inClippedRect hF wF r i j

/-- The body of the while-loop of `process_video` for one frame: detect
faces; when at least one was found, blur them; otherwise the frame is
written unchanged. -/
def processFrame (hF wF : Nat) (detect : Detect) (gauss : Gauss)
    (f : Frame) : Frame :=
  let faces := detect f
  if faces.length > 0 then apply_face_blur hF wF gauss f faces else f

/-- The while-loop of `process_video` over the decoded frames, carrying the
`frame_count` and `faces_found` counters.  Returns the frames written to
the output video together with the final counters. -/
def videoLoop (hF wF : Nat) (detect : Detect) (gauss : Gauss) :
    List Frame → Nat → Nat → List Frame × Nat × Nat
  | [], frameCount, facesFound => ([], frameCount, facesFound)
  | f :: fs, frameCount, facesFound =>
    let faces := detect f
    let facesFound2 :=
      if faces.length > 0 then facesFound + faces.length else facesFound
    let f2 :=
      if faces.length > 0 then apply_face_blur hF wF gauss f faces else f
    let rest := videoLoop hF wF detect gauss fs (frameCount + 1) facesFound2
    (f2 :: rest.1, rest.2)

/-- The body of the `try` block of `process_video`: when the codec cannot
open the input (`cap.isOpened()` false) it raises
`Exception('Could not open video file')`; otherwise it runs the frame loop
and returns `(True, faces_found)` data. -/
def process_video_run (hF wF : Nat) (detect : Detect) (gauss : Gauss)
    (opened : Bool) (frames : List Frame) : Except String (List Frame × Nat) :=
  if opened then
    let r := videoLoop hF wF detect gauss frames 0 0
    .ok (r.1, r.2.2)
  else
    .error "Could not open video file"

/-- `process_video`: the `try/except` wrapper — any exception raised inside
is swallowed and turned into `(False, 0)`. -/
def process_video (hF wF : Nat) (detect : Detect) (gauss : Gauss)
    (opened : Bool) (frames : List Frame) : Bool × Nat :=
  match process_video_run hF wF detect gauss opened frames with
  | .ok r => (true, r.2)
  | .error _ => (false, 0)

/-- `download_video(url)`: on fetch failure the exception (with message e)
propagates to the caller; on success the bytes are written to a
`NamedTemporaryFile(delete=False, suffix='.mp4')`, whose path is the
temp-file base name with `.mp4` appended, and that path is returned. -/
def download_video (fetch : Except String Unit) (base : String) :
    Except String String :=
  match fetch with
  | .error e => .error e
  | .ok _ => .ok (base ++ ".mp4")

/-- Python `s.replace('.mp4', rep)` on the character list of `s`: scan left
to right; at each position that starts with `.mp4`, emit `rep` and continue
after the occurrence; otherwise keep the character.  This is Python's
non-overlapping replace-all semantics, specialised to the constant pattern
`.mp4` used at the call site. -/
def replaceMp4Chars (rep : List Char) : List Char → List Char
  | [] => []
  | '.' :: 'm' :: 'p' :: '4' :: rest => rep ++ replaceMp4Chars rep rest
  | c :: rest => c :: replaceMp4Chars rep rest

/-- `input_path.replace('.mp4', rep)` as a function on strings. -/
def replaceMp4 (s rep : String) : String :=
  (replaceMp4Chars rep.toList s.toList).asString

/-- `if not data or 'videoUrl' not in data`: the JSON body, when present,
is an association list of string fields; Python's `not data` is true for
`None` and for the empty dict. -/
def missingParam (data : Option (List (String × String))) : Bool :=
  match data with
  | none => true
  | some d => d.isEmpty || (d.lookup "videoUrl").isNone

/-- The JSON body of a `/blur` response; fields the handler did not set
are `none`. -/
structure BlurResult where
  status : Nat
  success : Bool
  error : Option String
  facesFound : Option Nat
  outputPath : Option String
  fileSize : Option Nat
  message : Option String
deriving DecidableEq, Repr

/-- The file-system effect trace of one `/blur` request: whether the
handler reached the download, whether it reached `process_video`, and
whether it removed the input resp. the output file. -/
structure Effects where
  downloadAttempted : Bool
  processAttempted : Bool
  inputRemoved : Bool
  outputRemoved : Bool
deriving DecidableEq, Repr

/-- The `/blur` endpoint `blur_video`.  `data` is the parsed JSON body
(`none` when absent), `fetch` the outcome of the HTTP download, `base` the
temp-file base name chosen by `tempfile`, `opened` whether the codec opens
the downloaded video, `frames` its decoded frames, and `size` the size
`os.path.getsize` reports for the output file.  Returns the JSON response
(with HTTP status) and the effect trace. -/
def blur_video (hF wF : Nat) (detect : Detect) (gauss : Gauss)
    (data : Option (List (String × String))) (fetch : Except String Unit)
    (base : String) (opened : Bool) (frames : List Frame) (size : Nat) :
    BlurResult × Effects :=
  if missingParam data then
    (⟨400, false, some "Missing videoUrl parameter", none, none, none, none⟩,
     ⟨false, false, false, false⟩)
  else
    match download_video fetch base with
    | .error e =>
      (⟨500, false, some e, none, none, none, none⟩,
       ⟨true, false, false, false⟩)
    | .ok inputPath =>
      let outputPath := replaceMp4 inputPath "_blurred.mp4"
      let r := process_video hF wF detect gauss opened frames
      if r.1 = false then
        (⟨500, false, some "Failed to process video", none, none, none, none⟩,
         ⟨true, true, false, false⟩)
      else
        (⟨200, true, none, some r.2, some outputPath, some size,
          some ("Blurred " ++ toString r.2 ++ " faces in video")⟩,
         ⟨true, true, true, false⟩)

/-- The frame loop in closed form: it writes the pointwise map of
`processFrame` over the input frames, and the counters advance by the
number of frames resp. the total number of detected faces. -/
theorem videoLoop_spec (hF wF : Nat) (detect : Detect) (gauss : Gauss)
    (frames : List Frame) (fc ff : Nat) :
    videoLoop hF wF detect gauss frames fc ff =
      (frames.map (processFrame hF wF detect gauss), fc + frames.length,
       ff + (frames.map (fun f => (detect f).length)).sum) := by
  induction frames generalizing fc ff with
  | nil => simp [videoLoop]
  | cons f fs ih =>
    by_cases h : (detect f).length > 0
    · simp [videoLoop, ih, processFrame, h]
      all_goals omega
    · have h0 : (detect f).length = 0 := by omega
      simp [videoLoop, ih, processFrame, h, h0]
      all_goals omega

/-- C9: `apply_face_blur` operates on a copy of its input frame, and in the
frame it returns every pixel outside the union of the given face
rectangles, clipped to the frame bounds, equals the corresponding pixel of
the input frame. -/
theorem C9_blur_preserves_outside (hF wF : Nat) (gauss : Gauss)
    (frame : Frame) (faces : List Rect) (i j : Nat)
    (h : outsideAll hF wF faces i j = true) :
    apply_face_blur hF wF gauss frame faces i j = frame i j := by
  induction faces generalizing frame with
  | nil => rfl
  | cons r rs ih =>
    have hall := List.all_eq_true.mp h
    have hr : inClippedRect hF wF r i j = false := by
      simpa using hall r (List.mem_cons_self r rs)
    have hrs : outsideAll hF wF rs i j = true := by
      refine List.all_eq_true.mpr ?_
      intro a ha
      exact hall a (List.mem_cons_of_mem r ha)
    calc apply_face_blur hF wF gauss frame (r :: rs) i j
        = apply_face_blur hF wF gauss (blurOneFace hF wF gauss frame r) rs i j := rfl
      _ = blurOneFace hF wF gauss frame r i j := ih _ hrs
      _ = frame i j := by simp [blurOneFace, hr]

/-- C9 witness: pixel (3, 3) of a 5×5 frame lies outside the single face
rectangle at (0, 0) of size 2×2, and the blurred frame agrees with the
input frame there. -/
theorem C9_blur_preserves_outside_witness :
    outsideAll 5 5 [⟨0, 0, 2, 2⟩] 3 3 = true ∧
    apply_face_blur 5 5 (fun _ _ _ _ => 7) (fun a b => a + b) [⟨0, 0, 2, 2⟩] 3 3 =
      (fun a b => a + b : Frame) 3 3 :=
  ⟨by decide,
   C9_blur_preserves_outside 5 5 (fun _ _ _ _ => 7) (fun a b => a + b)
     [⟨0, 0, 2, 2⟩] 3 3 (by decide)⟩

/-- C4: the frame loop of `process_video` runs face detection on every
decoded frame (each output frame is `processFrame`, which calls the
detector, of the corresponding input frame) and writes exactly one output
frame per input frame: the list of written frames has the length of the
input, and the final `frame_count` equals the number of input frames. -/
theorem C4_one_output_per_input (hF wF : Nat) (detect : Detect)
    (gauss : Gauss) (frames : List Frame) :
    (videoLoop hF wF detect gauss frames 0 0).1 =
      frames.map (processFrame hF wF detect gauss) ∧
    (videoLoop hF wF detect gauss frames 0 0).1.length = frames.length ∧
    (videoLoop hF wF detect gauss frames 0 0).2.1 = frames.length := by
  simp [videoLoop_spec]

/-- C5: no cross-frame state: output frame i of the loop depends on input
frame i alone — it is `processFrame` (detect, then blur when faces were
found) of input frame i, whatever the other frames are. -/
theorem C5_pointwise_no_cross_frame_state (hF wF : Nat) (detect : Detect)
    (gauss : Gauss) (frames : List Frame) (dflt : Frame) (i : Nat)
    (h : i < frames.length) :
    (videoLoop hF wF detect gauss frames 0 0).1.getD i dflt =
      processFrame hF wF detect gauss (frames.getD i dflt) := by
  have hlen : i < (frames.map (processFrame hF wF detect gauss)).length := by
    simpa using h
  simp only [videoLoop_spec]
  rw [List.getD_eq_getElem?_getD, List.getElem?_eq_getElem hlen,
      List.getD_eq_getElem?_getD, List.getElem?_eq_getElem h]
  simp

/-- C5 witness: a one-frame video; output frame 0 is `processFrame` of
input frame 0. -/
theorem C5_pointwise_no_cross_frame_state_witness :
    0 < ([fun a b => a * b] : List Frame).length ∧
    (videoLoop 4 4 (fun _ => []) (fun _ _ _ _ => 0)
        [fun a b => a * b] 0 0).1.getD 0 (fun _ _ => 0) =
      processFrame 4 4 (fun _ => []) (fun _ _ _ _ => 0)
        (([fun a b => a * b] : List Frame).getD 0 (fun _ _ => 0)) :=
  ⟨by decide,
   C5_pointwise_no_cross_frame_state 4 4 (fun _ => []) (fun _ _ _ _ => 0)
     [fun a b => a * b] (fun _ _ => 0) 0 (by decide)⟩

/-- C8: `process_video` never propagates an exception: it always returns a
pair, namely (False, 0) on internal failure (the codec cannot open the
input) and (True, n) on success, where n is the sum over all frames of the
number of faces detected in that frame. -/
theorem C8_process_video_total_result (hF wF : Nat) (detect : Detect)
    (gauss : Gauss) (opened : Bool) (frames : List Frame) :
    process_video hF wF detect gauss opened frames =
      if opened then (true, (frames.map (fun f => (detect f).length)).sum)
      else (false, 0) := by
  cases opened <;>
    simp [process_video, process_video_run, videoLoop_spec]

/-- C6: when the JSON body is absent or lacks the key `videoUrl`, the
response is 400 with `success = false` and an error message, and neither
the download nor the processing step is performed. -/
theorem C6_missing_videoUrl (hF wF : Nat) (detect : Detect) (gauss : Gauss)
    (data : Option (List (String × String))) (fetch : Except String Unit)
    (base : String) (opened : Bool) (frames : List Frame) (size : Nat)
    (h : missingParam data = true) :
    (blur_video hF wF detect gauss data fetch base opened frames size).1 =
      ⟨400, false, some "Missing videoUrl parameter", none, none, none, none⟩ ∧
    (blur_video hF wF detect gauss data fetch base opened frames
        size).2.downloadAttempted = false ∧
    (blur_video hF wF detect gauss data fetch base opened frames
        size).2.processAttempted = false := by
  simp [blur_video, h]

/-- C6 witness: an absent JSON body yields the 400 response and no
download or processing. -/
theorem C6_missing_videoUrl_witness :
    missingParam none = true ∧
    ((blur_video 1 1 (fun _ => []) (fun _ _ _ _ => 0) none (.ok ()) "/tmp/t"
        true [] 0).1 =
      ⟨400, false, some "Missing videoUrl parameter", none, none, none, none⟩ ∧
    (blur_video 1 1 (fun _ => []) (fun _ _ _ _ => 0) none (.ok ()) "/tmp/t"
        true [] 0).2.downloadAttempted = false ∧
    (blur_video 1 1 (fun _ => []) (fun _ _ _ _ => 0) none (.ok ()) "/tmp/t"
        true [] 0).2.processAttempted = false) :=
  ⟨rfl,
   C6_missing_videoUrl 1 1 (fun _ => []) (fun _ _ _ _ => 0) none (.ok ())
     "/tmp/t" true [] 0 rfl⟩

/-- C3: a request whose download and processing succeed gets a 200 response
with `success = true`, `facesFound` equal to the total face count over all
frames (a natural number, hence at least 0), and `outputPath`, `fileSize`
and `message` fields set. -/
theorem C3_success_response (hF wF : Nat) (detect : Detect) (gauss : Gauss)
    (data : Option (List (String × String))) (base : String)
    (frames : List Frame) (size : Nat)
    (hm : missingParam data = false) :
    (blur_video hF wF detect gauss data (.ok ()) base true frames size).1 =
      ⟨200, true, none,
       some ((frames.map (fun f => (detect f).length)).sum),
       some (replaceMp4 (base ++ ".mp4") "_blurred.mp4"), some size,
       some ("Blurred " ++
         toString ((frames.map (fun f => (detect f).length)).sum) ++
         " faces in video")⟩ ∧
    0 ≤ (frames.map (fun f => (detect f).length)).sum := by
  refine ⟨?_, Nat.zero_le _⟩
  simp [blur_video, hm, download_video, process_video, process_video_run,
    videoLoop_spec]

/-- C3 witness: a concrete successful request returns the 200 body with all
success fields. -/
theorem C3_success_response_witness :
    missingParam (some [("videoUrl", "u")]) = false ∧
    (blur_video 1 1 (fun _ => []) (fun _ _ _ _ => 0)
        (some [("videoUrl", "u")]) (.ok ()) "/tmp/t" true [] 3).1 =
      ⟨200, true, none, some 0, some "/tmp/t_blurred.mp4", some 3,
       some "Blurred 0 faces in video"⟩ := by
  have h := C3_success_response 1 1 (fun _ => []) (fun _ _ _ _ => 0)
    (some [("videoUrl", "u")]) "/tmp/t" [] 3 (by decide)
  refine ⟨by decide, ?_⟩
  rw [h.1]
  decide

/-- C10: on a successful request the `outputPath` of the response is the
downloaded temp file's path with every occurrence of `.mp4` replaced by
`_blurred.mp4` (Python `str.replace` semantics, modelled by `replaceMp4`),
and that temp path always ends in `.mp4`. -/
theorem C10_output_path (hF wF : Nat) (detect : Detect) (gauss : Gauss)
    (data : Option (List (String × String))) (base : String)
    (frames : List Frame) (size : Nat)
    (hm : missingParam data = false) :
    download_video (.ok ()) base = .ok (base ++ ".mp4") ∧
    (blur_video hF wF detect gauss data (.ok ()) base true frames
        size).1.outputPath =
      some (replaceMp4 (base ++ ".mp4") "_blurred.mp4") ∧
    ∃ b, base ++ ".mp4" = b ++ ".mp4" := by
  refine ⟨rfl, ?_, ⟨base, rfl⟩⟩
  simp [blur_video, hm, download_video, process_video, process_video_run,
    videoLoop_spec]

/-- C10 witness: a concrete successful request; the output path is the temp
path with the `.mp4` occurrence replaced. -/
theorem C10_output_path_witness :
    missingParam (some [("videoUrl", "u")]) = false ∧
    (blur_video 1 1 (fun _ => []) (fun _ _ _ _ => 0)
        (some [("videoUrl", "u")]) (.ok ()) "/tmp/vid" true [] 0).1.outputPath =
      some "/tmp/vid_blurred.mp4" ∧
    replaceMp4 ("/tmp/vid" ++ ".mp4") "_blurred.mp4" = "/tmp/vid_blurred.mp4" := by
  have h := C10_output_path 1 1 (fun _ => []) (fun _ _ _ _ => 0)
    (some [("videoUrl", "u")]) "/tmp/vid" [] 0 (by decide)
  refine ⟨by decide, ?_, by decide⟩
  rw [h.2.1]
  decide

/-- C1 counterexample: a request whose processing fails because the codec
cannot open the downloaded video.  The exception that caused the failure
has message "Could not open video file", but the 500 response's error field
is the fixed string "Failed to process video" — `process_video` swallows
the exception before the endpoint builds the response. -/
theorem C1_counterexample_fixed_error_string :
    process_video_run 1 1 (fun _ => []) (fun _ _ _ _ => 0) false [] =
      .error "Could not open video file" ∧
    (blur_video 1 1 (fun _ => []) (fun _ _ _ _ => 0)
        (some [("videoUrl", "u")]) (.ok ()) "/tmp/t" false [] 0).1.status = 500 ∧
    (blur_video 1 1 (fun _ => []) (fun _ _ _ _ => 0)
        (some [("videoUrl", "u")]) (.ok ()) "/tmp/t" false [] 0).1.error =
      some "Failed to process video" ∧
    ("Failed to process video" : String) ≠ "Could not open video file" :=
  ⟨rfl, by decide, by decide, by decide⟩

/-- C1 (amended): every request that fails during download or processing
gets a 500 response with body success = false and an error field; on
download failure the error field is the string message of the exception,
but on processing failure it is the fixed string "Failed to process video"
rather than the underlying exception's message. -/
theorem C1_failure_responses (hF wF : Nat) (detect : Detect) (gauss : Gauss)
    (data : Option (List (String × String))) (base : String)
    (frames : List Frame) (size : Nat)
    (hm : missingParam data = false) :
    (∀ e : String,
      (blur_video hF wF detect gauss data (.error e) base true frames
          size).1 =
        ⟨500, false, some e, none, none, none, none⟩) ∧
    (∀ opened : Bool,
      process_video hF wF detect gauss opened frames = (false, 0) →
      (blur_video hF wF detect gauss data (.ok ()) base opened frames
          size).1 =
        ⟨500, false, some "Failed to process video", none, none, none,
         none⟩) := by
  constructor
  · intro e
    simp [blur_video, hm, download_video]
  · intro opened hp
    simp [blur_video, hm, download_video, hp]

/-- C1 witness: a download that fails with message "boom" yields the 500
response carrying that message. -/
theorem C1_failure_responses_witness :
    missingParam (some [("videoUrl", "u")]) = false ∧
    (blur_video 1 1 (fun _ => []) (fun _ _ _ _ => 0)
        (some [("videoUrl", "u")]) (.error "boom") "/tmp/t" true [] 0).1 =
      ⟨500, false, some "boom", none, none, none, none⟩ :=
  ⟨by decide,
   (C1_failure_responses 1 1 (fun _ => []) (fun _ _ _ _ => 0)
     (some [("videoUrl", "u")]) "/tmp/t" [] 0 (by decide)).1 "boom"⟩

/-- C2 counterexample: a request that downloads successfully but whose
processing fails returns the 500 response before the cleanup line, so the
downloaded input temp file is NOT deleted, contradicting the claim that the
input is deleted at request end on failing requests too. -/
theorem C2_counterexample_input_left_on_disk :
    (blur_video 1 1 (fun _ => []) (fun _ _ _ _ => 0)
        (some [("videoUrl", "u")]) (.ok ()) "/tmp/u" false [] 0).2.downloadAttempted =
      true ∧
    (blur_video 1 1 (fun _ => []) (fun _ _ _ _ => 0)
        (some [("videoUrl", "u")]) (.ok ()) "/tmp/u" false [] 0).1.status = 500 ∧
    (blur_video 1 1 (fun _ => []) (fun _ _ _ _ => 0)
        (some [("videoUrl", "u")]) (.ok ()) "/tmp/u" false [] 0).2.inputRemoved =
      false := by
  refine ⟨by decide, by decide, by decide⟩

/-- C2 (amended): on a request that reaches the download step, the input
temp file is removed exactly when processing succeeds — the
processing-failure response returns before the cleanup, leaving the input
on disk — and the output file is never removed by the handler. -/
theorem C2_cleanup_policy (hF wF : Nat) (detect : Detect) (gauss : Gauss)
    (data : Option (List (String × String))) (base : String) (opened : Bool)
    (frames : List Frame) (size : Nat)
    (hm : missingParam data = false) :
    (blur_video hF wF detect gauss data (.ok ()) base opened frames
        size).2.inputRemoved =
      (process_video hF wF detect gauss opened frames).1 ∧
    (blur_video hF wF detect gauss data (.ok ()) base opened frames
        size).2.outputRemoved = false ∧
    (∀ e : String,
      (blur_video hF wF detect gauss data (.error e) base opened frames
          size).2.inputRemoved = false) := by
  refine ⟨?_, ?_, ?_⟩
  · rcases h : process_video hF wF detect gauss opened frames with ⟨b, n⟩
    cases b <;> simp [blur_video, hm, download_video, h]
  · rcases h : process_video hF wF detect gauss opened frames with ⟨b, n⟩
    cases b <;> simp [blur_video, hm, download_video, h]
  · intro e
    simp [blur_video, hm, download_video]

/-- C2 witness: on a concrete successful request the input file is removed,
matching the success of processing. -/
theorem C2_cleanup_policy_witness :
    missingParam (some [("videoUrl", "u")]) = false ∧
    (blur_video 1 1 (fun _ => []) (fun _ _ _ _ => 0)
        (some [("videoUrl", "u")]) (.ok ()) "/tmp/u" true [] 0).2.inputRemoved =
      true := by
  have h := C2_cleanup_policy 1 1 (fun _ => []) (fun _ _ _ _ => 0)
    (some [("videoUrl", "u")]) "/tmp/u" true [] 0 (by decide)
  refine ⟨by decide, ?_⟩
  rw [h.1]
  decide

end FaceBlur
